/-
Verification of the copernicus-mcp server's geometry normalization, query
compilation, selection scoring, download orchestration and batch aggregation
logic (src/copernicus_mcp/server.py), as a shallow embedding in Lean 4.

Python numbers are modelled as rationals (ℚ); Python's dynamically typed
JSON-like geometry payloads are modelled by the inductive type `J`; functions
that raise ValueError are modelled in `Except String`.
-/
import Mathlib

namespace Copernicus

/-- A JSON-like structured value, as produced by `json.loads` or passed
directly by a caller: a number, a string, a list, or a string-keyed dict
(association list, first binding wins on lookup).  Python ints and floats are
both modelled as `ℚ`. -/
inductive J : Type
  | num (q : ℚ)
  | str (s : String)
  | arr (xs : List J)
  | obj (fields : List (String × J))
  deriving Repr

mutual

/-- Structural (value) equality on `J`, modelling Python `==` on parsed JSON
data. -/
def J.beq : J → J → Bool
  | .num a, .num b => a == b
  | .str a, .str b => a == b
  | .arr xs, .arr ys => J.beqL xs ys
  | .obj xs, .obj ys => J.beqF xs ys
  | _, _ => false

/-- Elementwise equality of `J` lists. -/
def J.beqL : List J → List J → Bool
  | [], [] => true
  | x :: xs, y :: ys => J.beq x y && J.beqL xs ys
  | _, _ => false

/-- Elementwise equality of string-keyed `J` field lists. -/
def J.beqF : List (String × J) → List (String × J) → Bool
  | [], [] => true
  | (k1, v1) :: xs, (k2, v2) :: ys => k1 == k2 && J.beq v1 v2 && J.beqF xs ys
  | _, _ => false

end

mutual

theorem J.beq_refl : ∀ a : J, J.beq a a = true
  | .num a => by simp [J.beq]
  | .str a => by simp [J.beq]
  | .arr xs => J.beqL_refl xs
  | .obj xs => J.beqF_refl xs

theorem J.beqL_refl : ∀ xs : List J, J.beqL xs xs = true
  | [] => rfl
  | x :: xs => by
      simp only [J.beqL, Bool.and_eq_true]
      exact ⟨J.beq_refl x, J.beqL_refl xs⟩

theorem J.beqF_refl : ∀ xs : List (String × J), J.beqF xs xs = true
  | [] => rfl
  | (k, v) :: xs => by
      simp only [J.beqF, Bool.and_eq_true, beq_self_eq_true, true_and]
      exact ⟨J.beq_refl v, J.beqF_refl xs⟩

end

mutual

theorem J.eq_of_beq : ∀ {a b : J}, J.beq a b = true → a = b
  | .num a, .num b, h => by
      simp only [J.beq, beq_iff_eq] at h; rw [h]
  | .str a, .str b, h => by
      simp only [J.beq, beq_iff_eq] at h; rw [h]
  | .arr xs, .arr ys, h => congrArg J.arr (J.eqL_of_beq (by simpa [J.beq] using h))
  | .obj xs, .obj ys, h => congrArg J.obj (J.eqF_of_beq (by simpa [J.beq] using h))
  | .num _, .str _, h => by simp [J.beq] at h
  | .num _, .arr _, h => by simp [J.beq] at h
  | .num _, .obj _, h => by simp [J.beq] at h
  | .str _, .num _, h => by simp [J.beq] at h
  | .str _, .arr _, h => by simp [J.beq] at h
  | .str _, .obj _, h => by simp [J.beq] at h
  | .arr _, .num _, h => by simp [J.beq] at h
  | .arr _, .str _, h => by simp [J.beq] at h
  | .arr _, .obj _, h => by simp [J.beq] at h
  | .obj _, .num _, h => by simp [J.beq] at h
  | .obj _, .str _, h => by simp [J.beq] at h
  | .obj _, .arr _, h => by simp [J.beq] at h

theorem J.eqL_of_beq : ∀ {xs ys : List J}, J.beqL xs ys = true → xs = ys
  | [], [], _ => rfl
  | x :: xs, y :: ys, h => by
      simp only [J.beqL, Bool.and_eq_true] at h
      rw [J.eq_of_beq h.1, J.eqL_of_beq h.2]
  | [], _ :: _, h => by simp [J.beqL] at h
  | _ :: _, [], h => by simp [J.beqL] at h

theorem J.eqF_of_beq : ∀ {xs ys : List (String × J)}, J.beqF xs ys = true → xs = ys
  | [], [], _ => rfl
  | (k1, v1) :: xs, (k2, v2) :: ys, h => by
      simp only [J.beqF, Bool.and_eq_true, beq_iff_eq] at h
      rw [h.1.1, J.eq_of_beq h.1.2, J.eqF_of_beq h.2]
  | [], _ :: _, h => by simp [J.beqF] at h
  | _ :: _, [], h => by simp [J.beqF] at h

end

instance : DecidableEq J := fun a b =>
  if h : J.beq a b = true then .isTrue (J.eq_of_beq h)
  else .isFalse (fun he => h (he ▸ J.beq_refl a))

/-- Python `isinstance(x, (int, float))`. -/
def J.isNum : J → Bool
  | .num _ => true
  | _ => false

/-- The numeric value of a `J.num`; junk value 0 elsewhere (only ever read
after an `isNum` check, mirroring the Python code's check-then-use pattern). -/
def J.asNum : J → ℚ
  | .num q => q
  | _ => 0

/-- Python `dict.get(key)`: the first binding for `key`, or `None`. -/
def J.get (g : J) (key : String) : Option J :=
  match g with
  | .obj fields => fields.lookup key
  | _ => none

/-- A `[lon, lat]` coordinate-pair value. -/
def jpair (lon lat : ℚ) : J :=
  J.arr [J.num lon, J.num lat]

/-- The geometry_type enum of server.py (GeometryType). -/
inductive GeometryType : Type
  | point
  | polygon
  | bbox
  deriving DecidableEq, Repr

/-- server.py `create_bbox_from_point(lat, lon, size_km)`: a square ring
around the point using the fixed 1-degree-per-111-km approximation.  The
Python default `size_km=1.0` is passed explicitly by `validate_geometry`. -/
def create_bbox_from_point (lat lon size_km : ℚ) : J :=
  let delta := size_km / 111
  J.arr
    [ jpair (lon - delta) (lat - delta),
      jpair (lon + delta) (lat - delta),
      jpair (lon + delta) (lat + delta),
      jpair (lon - delta) (lat + delta),
      jpair (lon - delta) (lat - delta) ]

/-- The per-vertex validation of the polygon branches of `validate_geometry`:
the vertex must be a 2-element list of numbers (else "Invalid coordinate
pair"), with longitude in [-180,180] and latitude in [-90,90]; `i` is the
position reported in the error message. -/
def checkVertexPair (i : ℕ) (v : J) : Except String Unit :=
  match v with
  | .arr [a, b] =>
    if a.isNum && b.isNum then
      let lon := a.asNum
      let lat := b.asNum
      if -180 ≤ lon ∧ lon ≤ 180 then
        if -90 ≤ lat ∧ lat ≤ 90 then
          .ok ()
        else
          .error ("Latitude at position " ++ toString i ++
            " must be between -90 and 90, got " ++ toString lat)
      else
        .error ("Longitude at position " ++ toString i ++
          " must be between -180 and 180, got " ++ toString lon)
    else .error ("Invalid coordinate pair at position " ++ toString i)
  | _ => .error ("Invalid coordinate pair at position " ++ toString i)

/-- The `for i, coord_pair in enumerate(...)` validation loop of the polygon
branches of `validate_geometry`, starting at position `i`. -/
def checkVertices (i : ℕ) : List J → Except String Unit
  | [] => .ok ()
  | v :: vs =>
    match checkVertexPair i v with
    | .error e => .error e
    | .ok _ => checkVertices (i + 1) vs

/-- Ring closing in `validate_geometry`: if the first vertex differs from the
last, append the first vertex (`geometry + [geometry[0]]`). -/
def closeRing (vs : List J) : List J :=
  if vs.head? = vs.getLast? then vs else vs ++ vs.take 1

/-- server.py `validate_geometry(geometry, geometry_type)` on an
already-parsed structured payload.  (The `json.loads` preamble for string
payloads is not modelled; every claim concerns structured inputs.)  Raised
`ValueError`s are modelled as `Except.error` carrying the message.  The
returned value is the normalized ring: a `J.arr` of vertices on the point,
bbox and list-polygon paths, and whatever `coordinates[0]` holds on the
GeoJSON-dict path, which the source returns unvalidated. -/
def validate_geometry (geometry : J) (geometry_type : GeometryType) : Except String J :=
  match geometry_type with
  | .point =>
    match geometry with
    | .arr [a, b] =>
      if a.isNum && b.isNum then
        let lon := a.asNum
        let lat := b.asNum
        if -180 ≤ lon ∧ lon ≤ 180 then
          if -90 ≤ lat ∧ lat ≤ 90 then
            .ok (create_bbox_from_point lat lon 1)
          else .error ("Latitude must be between -90 and 90, got " ++ toString lat)
        else .error ("Longitude must be between -180 and 180, got " ++ toString lon)
      else .error "Point coordinates must be numbers"
    | _ => .error "Point geometry must be [lon, lat]"
  | .bbox =>
    match geometry with
    | .arr [a, b, c, d] =>
      if a.isNum && b.isNum && c.isNum && d.isNum then
        let min_lon := a.asNum
        let min_lat := b.asNum
        let max_lon := c.asNum
        let max_lat := d.asNum
        if -180 ≤ min_lon ∧ min_lon ≤ 180 then
          if -90 ≤ min_lat ∧ min_lat ≤ 90 then
            if -180 ≤ max_lon ∧ max_lon ≤ 180 then
              if -90 ≤ max_lat ∧ max_lat ≤ 90 then
                if min_lon < max_lon then
                  if min_lat < max_lat then
                    .ok (J.arr
                      [ jpair min_lon min_lat,
                        jpair max_lon min_lat,
                        jpair max_lon max_lat,
                        jpair min_lon max_lat,
                        jpair min_lon min_lat ])
                  else .error ("Min latitude (" ++ toString min_lat ++
                    ") must be less than max latitude (" ++ toString max_lat ++ ")")
                else .error ("Min longitude (" ++ toString min_lon ++
                  ") must be less than max longitude (" ++ toString max_lon ++ ")")
              else .error ("Max latitude must be between -90 and 90, got " ++ toString max_lat)
            else .error ("Max longitude must be between -180 and 180, got " ++ toString max_lon)
          else .error ("Min latitude must be between -90 and 90, got " ++ toString min_lat)
        else .error ("Min longitude must be between -180 and 180, got " ++ toString min_lon)
      else .error "Bounding box coordinates must be numbers"
    | _ => .error "Bounding box must be [min_lon, min_lat, max_lon, max_lat]"
  | .polygon =>
    match geometry with
    | .arr xs =>
      -- `if geometry and isinstance(geometry[0], list)`
      match xs with
      | [] => .error "Polygon must be a list of coordinate pairs"
      | x0 :: _ =>
        match x0 with
        | .arr ys =>
          -- `if geometry[0] and isinstance(geometry[0][0], (int, float))`
          match ys with
          | y0 :: _ =>
            if y0.isNum then
              -- flat polygon: [[lon, lat], [lon, lat], ...]
              match checkVertices 0 xs with
              | .error e => .error e
              | .ok _ =>
                if xs.length < 3 then .error "Polygon must have at least 3 points"
                else .ok (J.arr (closeRing xs))
            else
              -- nested polygon: [[[lon, lat], ...]]; only the outer ring is taken
              match checkVertices 0 ys with
              | .error e => .error e
              | .ok _ =>
                if ys.length < 3 then .error "Polygon must have at least 3 points"
                else .ok (J.arr (closeRing ys))
          | [] => .error "Polygon ring cannot be empty"
        | _ => .error "Polygon must be a list of coordinate pairs"
    | .obj fields =>
      -- GeoJSON polygon dict branch: the coordinates are returned unvalidated
      if (J.obj fields).get "type" = some (J.str "Polygon") then
        match ((J.obj fields).get "coordinates").getD (J.arr []) with
        | .arr (c :: _) => .ok c
        | _ => .error "Invalid GeoJSON polygon coordinates"
      else .error "Polygon must be a list of coordinates or GeoJSON Polygon"
    | _ => .error "Polygon must be a list of coordinates or GeoJSON Polygon"

example : validate_geometry (jpair 200 0) .point =
    .error "Longitude must be between -180 and 180, got 200" := by rfl

example : validate_geometry (J.arr [jpair 0 0, jpair 1 0, jpair 1 1]) .polygon =
    .ok (J.arr [jpair 0 0, jpair 1 0, jpair 1 1, jpair 0 0]) := by rfl

example : validate_geometry
    (J.obj [("type", J.str "Polygon"),
            ("coordinates", J.arr [J.arr [jpair 200 0, jpair 0 0, jpair 0 1]])]) .polygon =
    .ok (J.arr [jpair 200 0, jpair 0 0, jpair 0 1]) := by rfl

/-! ## Spatial query compiler (`search_copernicus_images`, filter construction) -/

/-- server.py `COPERNICUS_COLLECTIONS`: the fixed mission-to-collection
lookup table. -/
def COPERNICUS_COLLECTIONS : List (String × String) :=
  [ ("sentinel-1", "SENTINEL-1"),
    ("sentinel-2", "SENTINEL-2"),
    ("sentinel-3", "SENTINEL-3"),
    ("sentinel-5p", "SENTINEL-5P"),
    ("sentinel-6", "SENTINEL-6") ]

/-- server.py `get_collection_name`: table lookup with the unknown mission
passed through unchanged. -/
def get_collection_name (mission : String) : String :=
  (COPERNICUS_COLLECTIONS.lookup mission).getD mission

/-- Rendering of one `J` value inside the WKT f-string.  Only numbers occur on
the reachable paths of the claims; the remaining constructors are rendered by
placeholders standing for Python's `repr`-style formatting. -/
def jFormat : J → String
  | .num q => toString q
  | .str s => s
  | .arr _ => "[list]"
  | .obj _ => "[dict]"

/-- One iteration of the `for coord in geometry` WKT loop.  `none` models an
exception escaping the iteration and aborting the whole spatial block (it is
caught by the outer `except`): a number has no `len()` (TypeError), and a
dict of exactly 2 keys passes `len(coord) == 2` but then raises KeyError at
`coord[0]` (its keys are strings, never the integer 0).  `some none` is a
coordinate skipped by the `len(coord) == 2` test; `some (some s)`
contributes the f-string `"lon lat"`: from a 2-element list, or from a
2-character string, whose items `coord[0]`, `coord[1]` are its characters. -/
def wktCoordOf (coord : J) : Option (Option String) :=
  match coord with
  | .arr [a, b] => some (some (jFormat a ++ " " ++ jFormat b))
  | .arr _ => some none
  | .str s =>
    match s.toList with
    | [c1, c2] => some (some (String.mk [c1] ++ " " ++ String.mk [c2]))
    | _ => some none
  | .num _ => none
  | .obj fields => if fields.length = 2 then none else some none

/-- The `wkt_coords` list accumulated by the coordinate loop, in order;
`none` when some iteration raised (the first raising coordinate aborts the
loop and discards the list). -/
def build_wkt_coords : List J → Option (List String)
  | [] => some []
  | c :: cs =>
    match wktCoordOf c with
    | none => none
    | some none => build_wkt_coords cs
    | some (some s) =>
      match build_wkt_coords cs with
      | none => none
      | some ws => some (s :: ws)

/-- The items `for coord in geometry` yields for each ring shape that can
reach the loop: the elements of a list, the keys of a dict (iterated as
strings; distinct in a real Python dict, which `J.obj` models), and the
characters of a string as 1-character strings.  A number never reaches the
loop: `ringGate` already raised at `len(geometry)`. -/
def ringItems : J → List J
  | .arr vs => vs
  | .obj fields => fields.map (fun kv => J.str kv.1)
  | .str s => s.toList.map (fun c => J.str (String.mk [c]))
  | .num _ => []

/-- The guard `if geometry and len(geometry) > 0` over the validated ring:
`some true` enters the block, `some false` skips it (a falsy ring — empty
list, empty dict, empty string, or the number 0), and `none` models the
TypeError a truthy number raises at `len(geometry)`, caught by the outer
`except`. -/
def ringGate : J → Option Bool
  | .arr vs => some (decide (vs.length > 0))
  | .obj fields => some (decide (fields.length > 0))
  | .str s => some (decide (s.length > 0))
  | .num q => if q = 0 then some false else none

/-- The WKT polygon literal built by `search_copernicus_images`: `none` when
an iteration of the coordinate loop raised, `some ""` when no coordinate
qualified, else the comma-joined coordinates (closed by re-appending the
first if first and last strings differ) wrapped in `POLYGON((...))`.  The
source repeats this block verbatim for the polygon, bbox and point geometry
types, so it is shared here. -/
def build_wkt_geometry (items : List J) : Option String :=
  match build_wkt_coords items with
  | none => none
  | some [] => some ""
  | some (w0 :: ws) =>
    let wc := w0 :: ws
    let closed := if wc.head? = wc.getLast? then wc else wc ++ [w0]
    some ("POLYGON((" ++ String.intercalate "," closed ++ "))")

/-- The spatial filter term appended to `filter_parts`: present when the
validated ring passes the truthiness gate, its coordinate loop completes
without raising, and the WKT literal is non-empty.  Any exception inside
the block (gate or loop) is caught and the query proceeds without a spatial
term ("continue without it" policy). -/
def spatial_filter_of (ring : J) : Option String :=
  match ringGate ring with
  | some true =>
    match build_wkt_geometry (ringItems ring) with
    | none => none
    | some w =>
      if w = "" then none
      else some ("geo.intersects(Footprint, geography'" ++ w ++ "')")
  | _ => none

/-- The optional `date_range` parameter of `SearchParameters`: ISO-format
start/end strings (a trailing "Z" is appended on serialization), either of
which may be absent. -/
structure DateRange : Type where
  start : Option String
  stop : Option String
  deriving Repr, DecidableEq

/-- The `filter_parts` list built by `search_copernicus_images`: the
collection clause always; two inclusive ContentDate/Start comparisons when
both date bounds are present; the spatial clause when one was produced.
The cloud-cover filter is applied client-side after the query and never
contributes a clause. -/
def build_filter_parts (collection_name : String) (date_range : Option DateRange)
    (ring : J) : List String :=
  let parts := ["Collection/Name eq '" ++ collection_name ++ "'"]
  let parts :=
    match date_range with
    | some dr =>
      match dr.start, dr.stop with
      | some s, some e =>
        parts ++ ["ContentDate/Start ge " ++ s ++ "Z", "ContentDate/Start le " ++ e ++ "Z"]
      | _, _ => parts
    | none => parts
  match spatial_filter_of ring with
  | some sp => parts ++ [sp]
  | none => parts

/-- The front portion of `search_copernicus_images`: geometry validation
(whose `ValueError` is re-raised as "Invalid geometry: ..." before any query
construction or network call), then the compiled `filter_parts` list. -/
def search_filter_parts (geometry : J) (geometry_type : GeometryType)
    (mission : String) (date_range : Option DateRange) : Except String (List String) :=
  match validate_geometry geometry geometry_type with
  | .error e => .error ("Invalid geometry: " ++ e)
  | .ok ring => .ok (build_filter_parts (get_collection_name mission) date_range ring)

/-- The `$filter` string sent to the catalog: the parts joined with " and ". -/
def search_odata_filter (geometry : J) (geometry_type : GeometryType)
    (mission : String) (date_range : Option DateRange) : Except String String :=
  (search_filter_parts geometry geometry_type mission date_range).map
    (String.intercalate " and ")

example :
    search_odata_filter (J.arr [jpair 0 0, jpair 1 0, jpair 1 1]) .polygon "sentinel-2"
      (some ⟨some "2024-06-01T00:00:00", some "2024-06-30T00:00:00"⟩) =
    .ok ("Collection/Name eq 'SENTINEL-2' and ContentDate/Start ge 2024-06-01T00:00:00Z" ++
      " and ContentDate/Start le 2024-06-30T00:00:00Z and geo.intersects(Footprint, geography'" ++
      "POLYGON((0 0,1 0,1 1,0 0))')") := by rfl

/-! ## Selection scorer (`search_and_download`, best-image loop) -/

/-- Whether `needle` matches the start of `hay`. -/
def leadEq : List Char → List Char → Bool
  | [], _ => true
  | _ :: _, [] => false
  | a :: as, b :: bs => a == b && leadEq as bs

/-- Whether `needle` occurs contiguously anywhere in `hay`. -/
def occursIn (needle : List Char) : List Char → Bool
  | [] => leadEq needle []
  | b :: bs => leadEq needle (b :: bs) || occursIn needle bs

/-- Python `needle in hay` substring membership. -/
def strContains (hay needle : String) : Bool :=
  occursIn needle.data hay.data

/-- The fields of an `ImageMetadata` record read by the best-image selection
loop of `search_and_download`.  `days_ago` is `(datetime.now() -
acquisition_date).days` relative to the (fixed) time of the call. -/
structure ImageRecord : Type where
  id : String
  title : String
  days_ago : ℤ
  cloud_cover_percentage : Option ℚ
  processing_level : String
  deriving Repr, DecidableEq

/-- The score computed for one record by the selection loop: recency bonus
`max(0, 30 - days_ago)`, half of `100 - cloud_cover` when cloud cover is
present, and a processing-level bonus (20 for a level containing "L2A", else
10 for "L1C"). -/
def image_score (p : ImageRecord) : ℚ :=
  max 0 ((30 : ℚ) - (p.days_ago : ℚ))
    + (match p.cloud_cover_percentage with
       | some cc => (100 - cc) * (1 / 2)
       | none => 0)
    + (if strContains p.processing_level "L2A" then 20
       else if strContains p.processing_level "L1C" then 10 else 0)

/-- Python `score > best_score` against the running best, whose initial value
`float("-inf")` is modelled as `none`. -/
def beats (s : ℚ) : Option ℚ → Bool
  | none => true
  | some b => decide (b < s)

/-- The selection loop of `search_and_download`: `best_product`/`best_score`
are replaced only on a strict improvement, so ties keep the earlier record. -/
def select_best_go (best : Option ImageRecord) (best_score : Option ℚ) :
    List ImageRecord → Option ImageRecord × Option ℚ
  | [] => (best, best_score)
  | p :: ps =>
    if beats (image_score p) best_score then
      select_best_go (some p) (some (image_score p)) ps
    else
      select_best_go best best_score ps

/-- The selected best product (`best_product` after the loop). -/
def select_best (products : List ImageRecord) : Option ImageRecord :=
  (select_best_go none none products).1

/-- The maximum of `init` and the scores of `ps` (used to specify the loop). -/
def run_max (init : ℚ) (ps : List ImageRecord) : ℚ :=
  ps.foldl (fun acc p => max acc (image_score p)) init

/-! ## Download orchestrator (`_download_full_product`, `_download_compressed`) -/

/-- The observable behavior of one streamed GET against one endpoint:
a response with an HTTP status, whether the output file exists after the
write loop, and its on-disk size; or a raised `httpx.TimeoutException`; or
any other raised exception. -/
inductive HttpAttempt : Type
  | resp (status : ℕ) (fileCreated : Bool) (fileSize : ℕ)
  | timeoutExc (msg : String)
  | exc (msg : String)
  deriving Repr, DecidableEq

/-- First candidate endpoint of `_download_full_product`. -/
def download_url_1 (product_id : String) : String :=
  "https://download.dataspace.copernicus.eu/odata/v1/Products(" ++ product_id ++ ")/$value"

/-- Second candidate endpoint of `_download_full_product`. -/
def download_url_2 (product_id : String) : String :=
  "https://catalogue.dataspace.copernicus.eu/odata/v1/Products(" ++ product_id ++ ")/$value"

/-- The fixed ordered candidate list `download_urls` of
`_download_full_product`. -/
def download_urls (product_id : String) : List String :=
  [download_url_1 product_id, download_url_2 product_id]

/-- The compressed-asset endpoint of `_download_compressed`. -/
def compressed_url (product_id : String) : String :=
  "https://catalogue.dataspace.copernicus.eu/odata/v1/Products(" ++ product_id ++ ")/Compressed/$value"

/-- The result dict shapes returned by the download helpers: the success
shape (with `success: True`, `file_size_bytes` and `download_url`), the
all-endpoints failure of `_download_full_product` (with `tried_urls`), and
the three failure shapes of `_download_compressed`. -/
inductive DownloadOutcome : Type
  | success (download_type product_id filename : String) (file_size_bytes : ℕ)
      (download_url : String)
  | failureAll (product_id : String) (tried_urls : List String)
  | failureHttp (product_id : String) (status : ℕ) (url : String)
  | failureTimeout (product_id msg : String)
  | failureExc (error product_id msg : String)
  deriving Repr, DecidableEq

/-- The `for url in download_urls` loop of `_download_full_product`: an HTTP
200 whose streamed file exists on disk returns the success shape for that
url; any other response status, a missing output file, a timeout or another
exception moves on to the next candidate; an exhausted list returns the
failure shape enumerating `download_urls`. -/
def download_full_product_go (env : String → HttpAttempt) (product_id filename : String) :
    List String → DownloadOutcome
  | [] => .failureAll product_id (download_urls product_id)
  | url :: rest =>
    match env url with
    | .resp status fileCreated size =>
      if status = 200 then
        if fileCreated then
          .success "full" product_id (filename ++ ".zip") size url
        else download_full_product_go env product_id filename rest
      else download_full_product_go env product_id filename rest
    | .timeoutExc _ => download_full_product_go env product_id filename rest
    | .exc _ => download_full_product_go env product_id filename rest

/-- server.py `_download_full_product(product_id, filename, ...)`, with the
network modelled by `env` giving each endpoint URL its attempt behavior. -/
def download_full_product (env : String → HttpAttempt) (product_id filename : String) :
    DownloadOutcome :=
  download_full_product_go env product_id filename (download_urls product_id)

/-- server.py `_download_compressed(product_id, filename, ...)`: `envC` is
the behavior of the single compressed-asset request and `env` the behavior of
the full-product endpoints should the fallback run.  HTTP 200 with the file
on disk returns the compressed success shape; HTTP 200 with no file created
falls out of the response block and runs the full-product fallback; a non-200
status returns the HTTP failure shape directly; a timeout or other exception
is caught and returns its failure shape directly. -/
def download_compressed (envC : HttpAttempt) (env : String → HttpAttempt)
    (product_id filename : String) : DownloadOutcome :=
  match envC with
  | .resp status fileCreated size =>
    if status = 200 then
      if fileCreated then
        .success "compressed" product_id (filename ++ "_compressed.zip") size
          (compressed_url product_id)
      else download_full_product env product_id filename
    else .failureHttp product_id status (compressed_url product_id)
  | .timeoutExc m => .failureTimeout product_id m
  | .exc m => .failureExc "Compressed download failed" product_id m

/-! ## Batch scheduler (`batch_download_images`) -/

/-- What `asyncio.gather(..., return_exceptions=True)` captures for one task:
either a raised exception (returned as a value) or the dict returned by
`download_with_semaphore`. -/
inductive TaskResult : Type
  | raised (msg : String)
  | returned (outcome : DownloadOutcome)
  deriving Repr, DecidableEq

/-- Python `result.get("success")` truthiness: only the success shape carries
the key. -/
def DownloadOutcome.success? : DownloadOutcome → Bool
  | .success _ _ _ _ _ => true
  | _ => false

/-- Python `result.get("file_size_bytes", 0)`. -/
def DownloadOutcome.size_bytes : DownloadOutcome → ℕ
  | .success _ _ _ n _ => n
  | _ => 0

/-- One entry of the `failed` list built by `batch_download_images`: either
the shape built for a captured exception or the one wrapping a non-success
result dict; both carry the `image_id` of the input task. -/
inductive FailedEntry : Type
  | raised (image_id msg : String)
  | returned (image_id : String) (result : DownloadOutcome)
  deriving Repr, DecidableEq

/-- The image id a failed entry is attributed to. -/
def FailedEntry.image_id : FailedEntry → String
  | .raised i _ => i
  | .returned i _ => i

/-- The accumulators of the result-processing loop of
`batch_download_images`. -/
structure BatchAgg : Type where
  successful : List DownloadOutcome
  failed : List FailedEntry
  total_size : ℕ
  deriving Repr, DecidableEq

/-- The `for i, result in enumerate(results)` loop of
`batch_download_images`, consuming `(image_ids[i], results[i])` pairs:
captured exceptions and non-success dicts are appended to `failed` with the
task's image id, success dicts to `successful` with their
`file_size_bytes` added to `total_size`. -/
def process_results : List (String × TaskResult) → BatchAgg
  | [] => ⟨[], [], 0⟩
  | (image_id, r) :: rest =>
    let acc := process_results rest
    match r with
    | .raised msg => ⟨acc.successful, .raised image_id msg :: acc.failed, acc.total_size⟩
    | .returned o =>
      if o.success? then ⟨o :: acc.successful, acc.failed, o.size_bytes + acc.total_size⟩
      else ⟨acc.successful, .returned image_id o :: acc.failed, acc.total_size⟩

/-- server.py `batch_download_images` after authentication: one
`download_with_semaphore` invocation per image id (its per-task `try/except`
and the `return_exceptions=True` gather make `run` total, one `TaskResult`
per task, in input order), then the aggregation loop. -/
def batch_download (run : String → TaskResult) (image_ids : List String) : BatchAgg :=
  process_results (image_ids.zip (image_ids.map run))

/-! ## Product download links (`get_product_download_links`) -/

/-- One entry of the product's `Assets` expansion, as read by
`get_product_download_links`: `asset.get("Id")` (empty string standing for a
missing/null id, both falsy), `asset.get("Name", "")` and
`asset.get("ContentType")`. -/
structure Asset : Type where
  id : String
  name : String
  content_type : String
  deriving Repr, DecidableEq

/-- ASCII lowercasing of one character (Python `str.lower` restricted to the
ASCII asset names that occur in practice). -/
def lowerChar (c : Char) : Char :=
  if 'A' ≤ c ∧ c ≤ 'Z' then Char.ofNat (c.toNat + 32) else c

/-- ASCII lowercasing of a string. -/
def lowerStr (s : String) : String :=
  String.mk (s.data.map lowerChar)

/-- The quicklook/preview classification of the asset loop: content type
`image/jpeg`, or a lowercased name containing "quicklook" or "preview". -/
def isQuicklookAsset (a : Asset) : Bool :=
  a.content_type == "image/jpeg"
    || strContains (lowerStr a.name) "quicklook"
    || strContains (lowerStr a.name) "preview"

/-- The keys of the `download_links` dict literal built by
`get_product_download_links` ("full_product", "quicklook", "compressed" —
note the singular "quicklook"). -/
def download_links_keys : List String :=
  ["full_product", "quicklook", "compressed"]

/-- Python `d[key]` on the `download_links` dict: a `KeyError` (modelled as
`Except.error`) when the key is absent. -/
def dict_index (keys : List String) (key : String) : Except String Unit :=
  if key ∈ keys then .ok () else .error ("KeyError: " ++ key)

/-- The asset loop of `get_product_download_links`: each quicklook-classified
asset with a truthy `Id` appends to `download_links["quicklooks"]` — a key
the dict literal never defined — so the first such asset raises `KeyError`;
other assets are skipped. -/
def quicklook_scan : List Asset → Except String Unit
  | [] => .ok ()
  | a :: rest =>
    if isQuicklookAsset a && a.id != "" then
      match dict_index download_links_keys "quicklooks" with
      | .error e => .error e
      | .ok _ => quicklook_scan rest
    else quicklook_scan rest

/-- The result shape of `get_product_download_links`: the success dict, or
the error dict produced by the surrounding `except Exception` handler. -/
inductive LinksResult : Type
  | success (image_id : String)
  | error (image_id exception_msg : String)
  deriving Repr, DecidableEq

/-- server.py `get_product_download_links` after a successful product fetch
whose `Assets` expansion holds `assets`: the asset loop runs inside the
`try`, and any exception (in particular the `KeyError`) is converted to the
error shape. -/
def get_product_download_links (image_id : String) (assets : List Asset) : LinksResult :=
  match quicklook_scan assets with
  | .error e => .error image_id e
  | .ok _ => .success image_id

/-! ## Specification helpers -/

/-- A well-formed in-range vertex: a 2-element list of numbers with longitude
in [-180,180] and latitude in [-90,90] — exactly what `checkVertexPair`
accepts. -/
def pairOk (v : J) : Bool :=
  match v with
  | .arr [a, b] =>
    a.isNum && b.isNum
      && decide (-180 ≤ a.asNum ∧ a.asNum ≤ 180)
      && decide (-90 ≤ b.asNum ∧ b.asNum ≤ 90)
  | _ => false

/-- The vertex list of a ring value (empty for a non-list ring). -/
def ringVertices : J → List J
  | .arr vs => vs
  | _ => []

/-- The longitudes of the well-formed vertices of a ring. -/
def ringLons (r : List J) : List ℚ :=
  r.filterMap (fun v =>
    match v with
    | .arr [.num a, .num _] => some a
    | _ => none)

/-- The latitudes of the well-formed vertices of a ring. -/
def ringLats (r : List J) : List ℚ :=
  r.filterMap (fun v =>
    match v with
    | .arr [.num _, .num b] => some b
    | _ => none)

/-- Minimum of a rational list. -/
def qmin : List ℚ → Option ℚ
  | [] => none
  | x :: xs =>
    some (match qmin xs with
          | none => x
          | some m => min x m)

/-- Maximum of a rational list. -/
def qmax : List ℚ → Option ℚ
  | [] => none
  | x :: xs =>
    some (match qmax xs with
          | none => x
          | some m => max x m)

/-- The success-classification of one captured task result, as the batch
aggregation loop sees it: a returned dict with a truthy `success` key. -/
def succ_pick : TaskResult → Option DownloadOutcome
  | .returned o => if o.success? then some o else none
  | .raised _ => none

/-- The failed-entry built (if any) for one `(image_id, result)` pair of the
batch aggregation loop. -/
def fail_pick : String × TaskResult → Option FailedEntry
  | (i, .raised m) => some (.raised i m)
  | (i, .returned o) => if o.success? then none else some (.returned i o)

/-- A record scoring 55: cloud cover 50 and processing level "L2A"
(acquired 40 days ago, so no recency bonus). -/
def tie_record_1 : ImageRecord := ⟨"img-1", "S2A_MSIL2A_A", 40, some 50, "L2A"⟩

/-- A second record also scoring 55, with a different id. -/
def tie_record_2 : ImageRecord := ⟨"img-2", "S2A_MSIL2A_B", 40, some 50, "L2A"⟩

/-- A network where every endpoint answers HTTP 200 and the streamed file
lands on disk with 7 bytes. -/
def env_all_ok : String → HttpAttempt := fun _ => .resp 200 true 7

/-- A network where the first full-product endpoint for product "P1" times
out and every other endpoint answers HTTP 200 with a 42-byte file. -/
def env_first_timeout : String → HttpAttempt := fun url =>
  if url = download_url_1 "P1" then .timeoutExc "read timeout" else .resp 200 true 42

/-! ## Shared lemmas -/

theorem checkVertexPair_ok_iff (i : ℕ) (v : J) :
    checkVertexPair i v = .ok () ↔ pairOk v = true := by
  rcases v with q | s | xs | f
  · simp [checkVertexPair, pairOk]
  · simp [checkVertexPair, pairOk]
  · rcases xs with _ | ⟨a, _ | ⟨b, _ | ⟨c, xs⟩⟩⟩
    · simp [checkVertexPair, pairOk]
    · simp [checkVertexPair, pairOk]
    · simp only [checkVertexPair, pairOk]
      by_cases h1 : (a.isNum && b.isNum) = true
      · rw [if_pos h1]
        by_cases h2 : -180 ≤ a.asNum ∧ a.asNum ≤ 180
        · by_cases h3 : -90 ≤ b.asNum ∧ b.asNum ≤ 90
          · simp [h1, h2, h3]
          · simp [h1, h2, h3]
        · simp [h1, h2]
      · simp [h1]
    · simp [checkVertexPair, pairOk]
  · simp [checkVertexPair, pairOk]

theorem checkVertices_ok_iff (vs : List J) :
    ∀ i, checkVertices i vs = .ok () ↔ ∀ v ∈ vs, pairOk v = true := by
  induction vs with
  | nil => intro i; simp [checkVertices]
  | cons v vs ih =>
    intro i
    simp only [checkVertices]
    cases h : checkVertexPair i v with
    | error e =>
      have hv : ¬ pairOk v = true := fun hp =>
        by simp [(checkVertexPair_ok_iff i v).2 hp] at h
      simp [hv]
    | ok u =>
      cases u
      have hv : pairOk v = true := (checkVertexPair_ok_iff i v).1 h
      simp [hv, ih (i + 1)]

theorem checkVertices_error_of_bad (vs : List J) (i : ℕ)
    (h : ∃ v ∈ vs, pairOk v = false) : ∃ e, checkVertices i vs = .error e := by
  cases hres : checkVertices i vs with
  | error e => exact ⟨e, rfl⟩
  | ok u =>
    cases u
    rcases h with ⟨v, hv, hbad⟩
    have := ((checkVertices_ok_iff vs i).1 hres) v hv
    simp [this] at hbad

theorem closeRing_subset {v : J} {vs : List J} (h : v ∈ closeRing vs) : v ∈ vs := by
  unfold closeRing at h
  split at h
  · exact h
  · rcases List.mem_append.1 h with h | h
    · exact h
    · exact List.take_subset 1 vs h

theorem closeRing_closed (vs : List J) (hne : vs ≠ []) :
    (closeRing vs).head? = (closeRing vs).getLast? := by
  unfold closeRing
  split
  · assumption
  · rcases List.exists_cons_of_ne_nil hne with ⟨v0, rest, rfl⟩
    have htake : (v0 :: rest).take 1 = [v0] := rfl
    rw [htake, List.getLast?_concat]
    rfl

/-! ## Claim C10 -/

theorem quicklook_scan_eq (assets : List Asset) :
    quicklook_scan assets =
      if assets.any (fun a => isQuicklookAsset a && a.id != "") then
        .error "KeyError: quicklooks"
      else .ok () := by
  induction assets with
  | nil => rfl
  | cons a rest ih =>
    simp only [quicklook_scan, List.any_cons]
    by_cases h : (isQuicklookAsset a && a.id != "") = true
    · simp [h]
      rfl
    · simp only [Bool.not_eq_true] at h
      simp [h, ih]

/-- C10: if the fetched Assets list holds at least one asset classified as
quicklook/preview with a non-empty Id, `get_product_download_links` appends
to the never-created "quicklooks" key, the resulting KeyError is converted
by the surrounding handler into the error-shaped return; the success shape
is produced exactly when no such asset exists. -/
theorem get_product_download_links_keyerror (image_id : String) (assets : List Asset) :
    ((∃ a ∈ assets, isQuicklookAsset a = true ∧ a.id ≠ "") →
      get_product_download_links image_id assets = .error image_id "KeyError: quicklooks") ∧
    (get_product_download_links image_id assets = .success image_id ↔
      ∀ a ∈ assets, isQuicklookAsset a = true → a.id = "") := by
  unfold get_product_download_links
  rw [quicklook_scan_eq]
  by_cases h : assets.any (fun a => isQuicklookAsset a && a.id != "") = true
  · rw [if_pos h]
    constructor
    · intro _; rfl
    · simp only [reduceCtorEq, false_iff]
      rcases List.any_eq_true.1 h with ⟨a, ha, hpa⟩
      rw [Bool.and_eq_true, bne_iff_ne] at hpa
      intro hall
      exact hpa.2 (hall a ha hpa.1)
  · rw [if_neg h]
    constructor
    · rintro ⟨a, ha, hq, hid⟩
      exact absurd (List.any_eq_true.2 ⟨a, ha, by rw [Bool.and_eq_true, bne_iff_ne]; exact ⟨hq, hid⟩⟩) h
    · simp only [true_iff]
      intro a ha hq
      by_contra hid
      exact h (List.any_eq_true.2 ⟨a, ha, by rw [Bool.and_eq_true, bne_iff_ne]; exact ⟨hq, hid⟩⟩)

example :
    get_product_download_links "X"
      [⟨"A1", "ql", "image/jpeg"⟩] = .error "X" "KeyError: quicklooks" := by rfl

example :
    get_product_download_links "X"
      [⟨"A1", "manifest", "application/xml"⟩] = .success "X" := by decide

/-! ## Claim C2 -/

/-- C2 counterexample: a compressed download whose endpoint answers HTTP 404
(not found) returns the HTTP-failure shape outright, even in a network where
the full-product path would have succeeded — no fallback to
`_download_full_product` happens. -/
theorem download_compressed_404_counterexample :
    download_compressed (.resp 404 false 0) env_all_ok "P1" "f" =
        .failureHttp "P1" 404 (compressed_url "P1") ∧
    download_full_product env_all_ok "P1" "f" =
        .success "full" "P1" "f.zip" 7 (download_url_1 "P1") ∧
    download_compressed (.resp 404 false 0) env_all_ok "P1" "f" ≠
        download_full_product env_all_ok "P1" "f" := by
  refine ⟨rfl, rfl, ?_⟩
  intro h
  simp [download_compressed, download_full_product, download_urls,
    download_full_product_go, env_all_ok] at h

/-- C2 amended: `_download_compressed` falls back to the full-product path
only when the compressed endpoint answers HTTP 200 but the output file was
never created; an HTTP error status (e.g. not found), a timeout, or any
other exception returns the corresponding failure shape directly, without
consulting the full-product endpoints. -/
theorem download_compressed_characterization
    (env env' : String → HttpAttempt) (product_id filename : String) :
    (∀ status fileCreated size, status ≠ 200 →
      download_compressed (.resp status fileCreated size) env product_id filename =
        .failureHttp product_id status (compressed_url product_id) ∧
      download_compressed (.resp status fileCreated size) env product_id filename =
        download_compressed (.resp status fileCreated size) env' product_id filename) ∧
    (∀ m, download_compressed (.timeoutExc m) env product_id filename =
        .failureTimeout product_id m) ∧
    (∀ m, download_compressed (.exc m) env product_id filename =
        .failureExc "Compressed download failed" product_id m) ∧
    (∀ size, download_compressed (.resp 200 false size) env product_id filename =
        download_full_product env product_id filename) ∧
    (∀ size, download_compressed (.resp 200 true size) env product_id filename =
        .success "compressed" product_id (filename ++ "_compressed.zip") size
          (compressed_url product_id)) := by
  refine ⟨?_, fun m => rfl, fun m => rfl, fun size => rfl, fun size => rfl⟩
  intro status fileCreated size hs
  constructor
  · simp [download_compressed, hs]
  · simp [download_compressed, hs]

/-! ## Claim C3 -/

theorem download_full_product_go_skip (env : String → HttpAttempt)
    (product_id filename url : String) (rest : List String)
    (h : ∀ n, env url ≠ .resp 200 true n) :
    download_full_product_go env product_id filename (url :: rest) =
      download_full_product_go env product_id filename rest := by
  cases henv : env url with
  | resp s fc n =>
    simp only [download_full_product_go, henv]
    by_cases hs : s = 200
    · subst hs
      cases fc
      · simp
      · exact absurd henv (h n)
    · simp [hs]
  | timeoutExc m => simp [download_full_product_go, henv]
  | exc m => simp [download_full_product_go, henv]

theorem download_full_product_go_failure_iff (env : String → HttpAttempt)
    (product_id filename : String) (urls : List String) :
    download_full_product_go env product_id filename urls =
        .failureAll product_id (download_urls product_id) ↔
      ∀ url ∈ urls, ∀ n, env url ≠ .resp 200 true n := by
  induction urls with
  | nil => simp [download_full_product_go]
  | cons url rest ih =>
    by_cases hc : ∀ n, env url ≠ .resp 200 true n
    · rw [download_full_product_go_skip env product_id filename url rest hc, ih]
      constructor
      · intro hall u hu
        rcases List.mem_cons.1 hu with rfl | hu
        · exact hc
        · exact hall u hu
      · intro hall u hu
        exact hall u (List.mem_cons_of_mem url hu)
    · push_neg at hc
      rcases hc with ⟨n, hn⟩
      simp only [download_full_product_go, hn, if_pos rfl]
      constructor
      · intro h; cases h
      · intro hall
        exact absurd hn (hall url (List.mem_cons_self url rest) n)

/-- C3: `_download_full_product` tries its fixed ordered candidate endpoints
in turn, skipping a candidate on timeout or exception (or any non-successful
response); it returns the failure shape — which enumerates every candidate
URL tried — exactly when no candidate streams a file to disk; and when the
first candidate times out while the second answers HTTP 200 with the file on
disk, the outcome is the success shape carrying the second candidate's
URL. -/
theorem download_full_product_fallback (env : String → HttpAttempt)
    (product_id filename : String) :
    (download_full_product env product_id filename =
        .failureAll product_id (download_urls product_id) ↔
      ∀ url ∈ download_urls product_id, ∀ size, env url ≠ .resp 200 true size) ∧
    (∀ m size, env (download_url_1 product_id) = .timeoutExc m →
      env (download_url_2 product_id) = .resp 200 true size →
      download_full_product env product_id filename =
        .success "full" product_id (filename ++ ".zip") size (download_url_2 product_id)) := by
  constructor
  · exact download_full_product_go_failure_iff env product_id filename
      (download_urls product_id)
  · intro m size h1 h2
    unfold download_full_product download_urls
    simp [download_full_product_go, h1, h2]

example :
    download_full_product env_first_timeout "P1" "f" =
      .success "full" "P1" "f.zip" 42 (download_url_2 "P1") := by rfl

theorem pairOk_shape {v : J} (h : pairOk v = true) :
    ∃ a b : ℚ, v = J.arr [J.num a, J.num b] ∧
      (-180 ≤ a ∧ a ≤ 180) ∧ (-90 ≤ b ∧ b ≤ 90) := by
  rcases v with q | s | xs | f
  · simp [pairOk] at h
  · simp [pairOk] at h
  · rcases xs with _ | ⟨a, _ | ⟨b, _ | ⟨c, xs⟩⟩⟩
    · simp [pairOk] at h
    · simp [pairOk] at h
    · simp only [pairOk, Bool.and_eq_true, decide_eq_true_eq] at h
      obtain ⟨⟨⟨ha, hb⟩, h2⟩, h3⟩ := h
      rcases a with qa | _ | _ | _ <;> simp [J.isNum] at ha
      rcases b with qb | _ | _ | _ <;> simp [J.isNum] at hb
      exact ⟨qa, qb, rfl, h2, h3⟩
    · simp [pairOk] at h
  · simp [pairOk] at h

/-! ## Claim C9 -/

/-- C9: a flat-list polygon with at least 3 well-formed in-range vertices
whose first vertex equals its last is returned by `validate_geometry`
unchanged, so normalization is idempotent on its own (closed) output. -/
theorem validate_geometry_closed_polygon_idempotent (vs : List J)
    (h3 : 3 ≤ vs.length)
    (hok : ∀ v ∈ vs, pairOk v = true)
    (hcl : vs.head? = vs.getLast?) :
    validate_geometry (J.arr vs) .polygon = .ok (J.arr vs) := by
  rcases vs with _ | ⟨v0, rest⟩
  · simp at h3
  · obtain ⟨a, b, hv0, _, _⟩ := pairOk_shape (hok v0 (List.mem_cons_self v0 rest))
    subst hv0
    have hcv : checkVertices 0 (J.arr [J.num a, J.num b] :: rest) = .ok () :=
      (checkVertices_ok_iff _ 0).2 hok
    have hlen : ¬ (J.arr [J.num a, J.num b] :: rest).length < 3 := not_lt.2 h3
    simp only [validate_geometry, J.isNum, hcv, if_neg hlen]
    rw [if_pos trivial]
    unfold closeRing
    rw [if_pos hcl]

theorem validate_geometry_closed_polygon_idempotent_witness :
    validate_geometry (J.arr [jpair 0 0, jpair 1 0, jpair 1 1, jpair 0 0]) .polygon =
      .ok (J.arr [jpair 0 0, jpair 1 0, jpair 1 1, jpair 0 0]) :=
  validate_geometry_closed_polygon_idempotent
    [jpair 0 0, jpair 1 0, jpair 1 1, jpair 0 0]
    (by decide) (by decide) (by decide)

/-! ## Claim C1 -/

/-- A GeoJSON Polygon dict whose outer ring holds longitude 200. -/
def c1_geo : J :=
  J.obj [("type", J.str "Polygon"),
         ("coordinates", J.arr [J.arr [jpair 200 0, jpair 0 0, jpair 0 1]])]

/-- C1 counterexample: a GeoJSON Polygon object containing longitude 200 is
accepted by `validate_geometry` with no range check — the out-of-range
vertex appears in the returned ring and reaches the query compiler, which
happily serializes it into the spatial clause. -/
theorem validate_geometry_geojson_dict_unchecked :
    validate_geometry c1_geo .polygon =
        .ok (J.arr [jpair 200 0, jpair 0 0, jpair 0 1]) ∧
    pairOk (jpair 200 0) = false ∧
    search_filter_parts c1_geo .polygon "sentinel-2" none =
      .ok ["Collection/Name eq 'SENTINEL-2'",
        "geo.intersects(Footprint, geography'POLYGON((200 0,0 0,0 1,200 0))')"] :=
  ⟨rfl, by decide, rfl⟩

/-- C1 amended: the flat-list and nested-ring list forms of polygon input
are fully range-checked — a ring returned for a list input holds only
well-formed in-range vertices, and a flat-form list containing a bad vertex
raises `InvalidGeometry` —, and a raised geometry error propagates out of
the search before any filter is compiled.  GeoJSON Polygon dict inputs are
exempt from all checks (see the counterexample). -/
theorem polygon_tail_inv {ring : List J} {r : J}
    (h : (match checkVertices 0 ring with
          | .error e => (Except.error e : Except String J)
          | .ok _ =>
            if ring.length < 3 then .error "Polygon must have at least 3 points"
            else .ok (J.arr (closeRing ring))) = .ok r) :
    checkVertices 0 ring = .ok () ∧ r = J.arr (closeRing ring) := by
  cases hcv : checkVertices 0 ring with
  | error e => rw [hcv] at h; simp at h
  | ok u =>
    cases u
    rw [hcv] at h
    by_cases hl : ring.length < 3
    · rw [if_pos hl] at h; simp at h
    · rw [if_neg hl] at h; exact ⟨rfl, (Except.ok.inj h).symm⟩

/-- C1 amended: the flat-list and nested-ring list forms of polygon input
are fully range-checked — a ring returned for a list input holds only
well-formed in-range vertices, and a flat-form list containing a bad vertex
raises `InvalidGeometry` — and a raised geometry error propagates out of
the search before any filter is compiled.  GeoJSON Polygon dict inputs are
exempt from all checks (see the counterexample). -/
theorem validate_geometry_polygon_list_checked (xs : List J) (r : J) :
    (validate_geometry (J.arr xs) .polygon = .ok r →
      ∀ v ∈ ringVertices r, pairOk v = true) ∧
    ((∃ v ∈ xs, pairOk v = false) →
      (∀ y0 ys, xs.head? = some (J.arr (y0 :: ys)) → y0.isNum = true) →
      ∃ e, validate_geometry (J.arr xs) .polygon = .error e) ∧
    (∀ g gt mission dr e, validate_geometry g gt = .error e →
      search_filter_parts g gt mission dr = .error ("Invalid geometry: " ++ e)) := by
  refine ⟨?_, ?_, ?_⟩
  · rcases xs with _ | ⟨v0, rest⟩
    · intro h; simp [validate_geometry] at h
    · rcases v0 with q | s | ys | f
      · intro h; simp [validate_geometry] at h
      · intro h; simp [validate_geometry] at h
      · rcases ys with _ | ⟨y0, ys'⟩
        · intro h; simp [validate_geometry] at h
        · intro h
          by_cases hy : y0.isNum = true
          · simp only [validate_geometry, hy, if_true] at h
            obtain ⟨hcv, hr⟩ := polygon_tail_inv h
            subst hr
            intro v hv
            exact (checkVertices_ok_iff _ 0).1 hcv v
              (closeRing_subset (by simpa [ringVertices] using hv))
          · have hy' : y0.isNum = false := by simpa using hy
            simp only [validate_geometry, hy', Bool.false_eq_true, if_false] at h
            obtain ⟨hcv, hr⟩ := polygon_tail_inv h
            subst hr
            intro v hv
            exact (checkVertices_ok_iff _ 0).1 hcv v
              (closeRing_subset (by simpa [ringVertices] using hv))
      · intro h; simp [validate_geometry] at h
  · rintro ⟨v, hv, hbad⟩ hflat
    rcases xs with _ | ⟨v0, rest⟩
    · cases hv
    · rcases v0 with q | s | ys | f
      · exact ⟨"Polygon must be a list of coordinate pairs", rfl⟩
      · exact ⟨"Polygon must be a list of coordinate pairs", rfl⟩
      · rcases ys with _ | ⟨y0, ys'⟩
        · exact ⟨"Polygon ring cannot be empty", rfl⟩
        · have hy : y0.isNum = true := hflat y0 ys' rfl
          obtain ⟨e, hcv⟩ := checkVertices_error_of_bad (J.arr (y0 :: ys') :: rest) 0
            ⟨v, hv, hbad⟩
          exact ⟨e, by simp [validate_geometry, hy, hcv]⟩
      · exact ⟨"Polygon must be a list of coordinate pairs", rfl⟩
  · intro g gt mission dr e h
    simp [search_filter_parts, h]

/-! ## Claim C6 -/

/-- C6 counterexample: a search specifying only a mission (no date range, no
cloud-cover filter) but carrying an ordinary polygon geometry compiles to a
filter of two clauses — the collection clause and the spatial clause —
joined by an `and` connective. -/
theorem search_filter_mission_only_counterexample :
    search_filter_parts (J.arr [jpair 0 0, jpair 1 0, jpair 1 1]) .polygon
        "sentinel-2" none =
      .ok ["Collection/Name eq 'SENTINEL-2'",
        "geo.intersects(Footprint, geography'POLYGON((0 0,1 0,1 1,0 0))')"] ∧
    search_odata_filter (J.arr [jpair 0 0, jpair 1 0, jpair 1 1]) .polygon
        "sentinel-2" none =
      .ok ("Collection/Name eq 'SENTINEL-2' and geo.intersects(Footprint," ++
        " geography'POLYGON((0 0,1 0,1 1,0 0))')") :=
  ⟨rfl, rfl⟩

/-- C6 amended: a query specifying only a mission (no date range and no
cloud-cover filter) compiles to exactly one `AND`-free collection clause
precisely when the geometry contributes no spatial term — the validated
ring is falsy, its coordinate loop raises (a numeric or 2-key-dict
coordinate aborts the whole spatial block), or no coordinate passes the
`len == 2` test; otherwise the spatial clause is joined on, also for a
dict-shaped ring whose 2-character keys serialize as WKT coordinates.  The
third conjunct shows a reachable degenerate GeoJSON-dict input compiling
the collection clause alone; the fourth a reachable GeoJSON-dict input
whose dict-shaped ring still compiles two clauses. -/
theorem search_filter_mission_only_degenerate (mission : String) (ring : J) :
    (spatial_filter_of ring = none →
      build_filter_parts (get_collection_name mission) none ring =
        ["Collection/Name eq '" ++ get_collection_name mission ++ "'"]) ∧
    (∀ sp, spatial_filter_of ring = some sp →
      build_filter_parts (get_collection_name mission) none ring =
        ["Collection/Name eq '" ++ get_collection_name mission ++ "'", sp]) ∧
    search_filter_parts
        (J.obj [("type", J.str "Polygon"), ("coordinates", J.arr [J.arr []])])
        .polygon mission none =
      .ok ["Collection/Name eq '" ++ get_collection_name mission ++ "'"] ∧
    search_filter_parts
        (J.obj [("type", J.str "Polygon"),
                ("coordinates", J.arr [J.obj [("ab", J.num 1)]])])
        .polygon mission none =
      .ok ["Collection/Name eq '" ++ get_collection_name mission ++ "'",
        "geo.intersects(Footprint, geography'POLYGON((a b))')"] := by
  refine ⟨?_, ?_, rfl, rfl⟩
  · intro h
    simp [build_filter_parts, h]
  · intro sp h
    simp [build_filter_parts, h]

/-! ## Claim C8 -/

/-- C8: a valid point input expands into a 5-vertex closed ring (first and
last vertices identical) whose longitude extent is `[lon - 1/111, lon +
1/111]` and latitude extent `[lat - 1/111, lat + 1/111]` — both symmetric
around the input point. -/
theorem validate_geometry_point_ring (lon lat : ℚ)
    (hlon : -180 ≤ lon ∧ lon ≤ 180) (hlat : -90 ≤ lat ∧ lat ≤ 90) :
    ∃ r : List J,
      validate_geometry (J.arr [J.num lon, J.num lat]) .point = .ok (J.arr r) ∧
      r.length = 5 ∧
      r.head? = r.getLast? ∧
      qmin (ringLons r) = some (lon - 1 / 111) ∧
      qmax (ringLons r) = some (lon + 1 / 111) ∧
      qmin (ringLats r) = some (lat - 1 / 111) ∧
      qmax (ringLats r) = some (lat + 1 / 111) ∧
      (lon - 1 / 111) + (lon + 1 / 111) = 2 * lon ∧
      (lat - 1 / 111) + (lat + 1 / 111) = 2 * lat := by
  have hlon' : lon - 1 / 111 ≤ lon + 1 / 111 := by linarith
  have hlat' : lat - 1 / 111 ≤ lat + 1 / 111 := by linarith
  refine ⟨[jpair (lon - 1 / 111) (lat - 1 / 111), jpair (lon + 1 / 111) (lat - 1 / 111),
           jpair (lon + 1 / 111) (lat + 1 / 111), jpair (lon - 1 / 111) (lat + 1 / 111),
           jpair (lon - 1 / 111) (lat - 1 / 111)], ?_, rfl, rfl, ?_, ?_, ?_, ?_,
          by ring, by ring⟩
  · simp only [validate_geometry, J.isNum, J.asNum, Bool.and_self, if_true]
    rw [if_pos hlon, if_pos hlat]
    rfl
  · show some (min (lon - 1 / 111) (min (lon + 1 / 111) (min (lon + 1 / 111)
      (min (lon - 1 / 111) (lon - 1 / 111))))) = some (lon - 1 / 111)
    rw [min_self, min_eq_right hlon', min_eq_right hlon', min_self]
  · show some (max (lon - 1 / 111) (max (lon + 1 / 111) (max (lon + 1 / 111)
      (max (lon - 1 / 111) (lon - 1 / 111))))) = some (lon + 1 / 111)
    rw [max_self, max_eq_left hlon', max_self, max_eq_right hlon']
  · show some (min (lat - 1 / 111) (min (lat - 1 / 111) (min (lat + 1 / 111)
      (min (lat + 1 / 111) (lat - 1 / 111))))) = some (lat - 1 / 111)
    rw [min_eq_right hlat', min_eq_right hlat', min_self, min_self]
  · show some (max (lat - 1 / 111) (max (lat - 1 / 111) (max (lat + 1 / 111)
      (max (lat + 1 / 111) (lat - 1 / 111))))) = some (lat + 1 / 111)
    rw [max_eq_left hlat', max_self, max_eq_right hlat', max_eq_right hlat']

theorem validate_geometry_point_ring_witness :
    ∃ r : List J,
      validate_geometry (J.arr [J.num 2, J.num 48]) .point = .ok (J.arr r) ∧
      r.length = 5 ∧
      r.head? = r.getLast? ∧
      qmin (ringLons r) = some ((2 : ℚ) - 1 / 111) ∧
      qmax (ringLons r) = some ((2 : ℚ) + 1 / 111) ∧
      qmin (ringLats r) = some ((48 : ℚ) - 1 / 111) ∧
      qmax (ringLats r) = some ((48 : ℚ) + 1 / 111) ∧
      ((2 : ℚ) - 1 / 111) + ((2 : ℚ) + 1 / 111) = 2 * 2 ∧
      ((48 : ℚ) - 1 / 111) + ((48 : ℚ) + 1 / 111) = 2 * 48 :=
  validate_geometry_point_ring 2 48 (by norm_num) (by norm_num)

/-! ## Claim C5 -/

/-- C5 counterexample: the accepted point input [180, 0] produces a ring
whose east edge sits at longitude 180 + 1/111, outside [-180, 180] — the
returned ring violates the claimed range invariant. -/
theorem validate_geometry_range_counterexample :
    validate_geometry (jpair 180 0) .point = .ok (create_bbox_from_point 0 180 1) ∧
    jpair (180 + 1 / 111) (0 - 1 / 111) ∈ ringVertices (create_bbox_from_point 0 180 1) ∧
    ¬ ((180 + 1 / 111 : ℚ) ≤ 180) := by
  refine ⟨rfl, ?_, by norm_num⟩
  simp [create_bbox_from_point, ringVertices]

theorem isNum_shape {v : J} (h : v.isNum = true) : ∃ q, v = J.num q := by
  rcases v with q | s | xs | f
  · exact ⟨q, rfl⟩
  · simp [J.isNum] at h
  · simp [J.isNum] at h
  · simp [J.isNum] at h

theorem pairOk_jpair {x y : ℚ} (hx : -180 ≤ x ∧ x ≤ 180) (hy : -90 ≤ y ∧ y ≤ 90) :
    pairOk (jpair x y) = true := by
  simp only [pairOk, jpair, J.isNum, J.asNum, Bool.and_self, Bool.true_and,
    Bool.and_eq_true, decide_eq_true_eq]
  exact ⟨hx, hy⟩

/-- C5 amended: bbox rings and list-form polygon rings are closed with every
vertex a well-formed in-range pair; point rings are closed 5-vertex rings
whose vertices stay in range provided the point lies at least 1/111 degree
inside the coordinate bounds (a boundary point like [180, 0] overflows, see
the counterexample); rings from GeoJSON Polygon dict inputs carry no
guarantee at all. -/
theorem validate_geometry_ring_invariants (g : J) (gt : GeometryType) (r : List J)
    (h : validate_geometry g gt = .ok (J.arr r)) :
    (gt = .bbox → r.head? = r.getLast? ∧ r.length = 5 ∧ ∀ v ∈ r, pairOk v = true) ∧
    (gt = .point → r.head? = r.getLast? ∧ r.length = 5 ∧
      ∀ lon lat, g = J.arr [J.num lon, J.num lat] →
        (-180 + 1 / 111 ≤ lon ∧ lon ≤ 180 - 1 / 111 ∧
         -90 + 1 / 111 ≤ lat ∧ lat ≤ 90 - 1 / 111) →
        ∀ v ∈ r, pairOk v = true) ∧
    (gt = .polygon → ∀ xs, g = J.arr xs →
      r.head? = r.getLast? ∧ ∀ v ∈ r, pairOk v = true) := by
  refine ⟨?_, ?_, ?_⟩
  · rintro rfl
    rcases g with q | s | xs | f
    · simp [validate_geometry] at h
    · simp [validate_geometry] at h
    · rcases xs with _ | ⟨a, _ | ⟨b, _ | ⟨c, _ | ⟨d, _ | ⟨e, xs⟩⟩⟩⟩⟩
      · simp [validate_geometry] at h
      · simp [validate_geometry] at h
      · simp [validate_geometry] at h
      · simp [validate_geometry] at h
      · simp only [validate_geometry] at h
        by_cases hn : (a.isNum && b.isNum && c.isNum && d.isNum) = true
        · rw [if_pos hn] at h
          rw [Bool.and_eq_true, Bool.and_eq_true, Bool.and_eq_true] at hn
          obtain ⟨⟨⟨ha, hb⟩, hc⟩, hd⟩ := hn
          obtain ⟨qa, rfl⟩ := isNum_shape ha
          obtain ⟨qb, rfl⟩ := isNum_shape hb
          obtain ⟨qc, rfl⟩ := isNum_shape hc
          obtain ⟨qd, rfl⟩ := isNum_shape hd
          simp only [J.asNum] at h
          split_ifs at h with h1 h2 h3 h4 h5 h6
          · have hr : r = [jpair qa qb, jpair qc qb, jpair qc qd, jpair qa qd,
                jpair qa qb] := (J.arr.inj (Except.ok.inj h)).symm
            subst hr
            refine ⟨rfl, rfl, ?_⟩
            intro v hv
            simp only [List.mem_cons, List.not_mem_nil, or_false] at hv
            rcases hv with rfl | rfl | rfl | rfl | rfl
            · exact pairOk_jpair h1 h2
            · exact pairOk_jpair h3 h2
            · exact pairOk_jpair h3 h4
            · exact pairOk_jpair h1 h4
            · exact pairOk_jpair h1 h2
        · rw [if_neg hn] at h
          simp at h
      · simp [validate_geometry] at h
    · simp [validate_geometry] at h
  · rintro rfl
    rcases g with q | s | xs | f
    · simp [validate_geometry] at h
    · simp [validate_geometry] at h
    · rcases xs with _ | ⟨a, _ | ⟨b, _ | ⟨c, xs⟩⟩⟩
      · simp [validate_geometry] at h
      · simp [validate_geometry] at h
      · simp only [validate_geometry] at h
        by_cases hn : (a.isNum && b.isNum) = true
        · rw [if_pos hn] at h
          rw [Bool.and_eq_true] at hn
          obtain ⟨qa, rfl⟩ := isNum_shape hn.1
          obtain ⟨qb, rfl⟩ := isNum_shape hn.2
          simp only [J.asNum] at h
          split_ifs at h with h1 h2
          · simp only [create_bbox_from_point] at h
            have hr : r = [jpair (qa - 1 / 111) (qb - 1 / 111),
                jpair (qa + 1 / 111) (qb - 1 / 111),
                jpair (qa + 1 / 111) (qb + 1 / 111),
                jpair (qa - 1 / 111) (qb + 1 / 111),
                jpair (qa - 1 / 111) (qb - 1 / 111)] :=
              (J.arr.inj (Except.ok.inj h)).symm
            subst hr
            refine ⟨rfl, rfl, ?_⟩
            intro lon lat hg hb
            simp only [J.arr.injEq, List.cons.injEq, J.num.injEq, and_true] at hg
            obtain ⟨rfl, rfl⟩ := hg
            obtain ⟨hb1, hb2, hb3, hb4⟩ := hb
            intro v hv
            simp only [List.mem_cons, List.not_mem_nil, or_false] at hv
            rcases hv with rfl | rfl | rfl | rfl | rfl <;>
              exact pairOk_jpair ⟨by linarith, by linarith⟩ ⟨by linarith, by linarith⟩
        · rw [if_neg hn] at h
          simp at h
      · simp [validate_geometry] at h
    · simp [validate_geometry] at h
  · rintro rfl xs rfl
    rcases xs with _ | ⟨v0, rest⟩
    · simp [validate_geometry] at h
    · rcases v0 with q | s | ys | f
      · simp [validate_geometry] at h
      · simp [validate_geometry] at h
      · rcases ys with _ | ⟨y0, ys'⟩
        · simp [validate_geometry] at h
        · by_cases hy : y0.isNum = true
          · simp only [validate_geometry, hy, if_true] at h
            obtain ⟨hcv, hr⟩ := polygon_tail_inv h
            have hr' : r = closeRing (J.arr (y0 :: ys') :: rest) := J.arr.inj hr
            subst hr'
            refine ⟨closeRing_closed _ (by simp), ?_⟩
            intro v hv
            exact (checkVertices_ok_iff _ 0).1 hcv v (closeRing_subset hv)
          · have hy' : y0.isNum = false := by simpa using hy
            simp only [validate_geometry, hy', Bool.false_eq_true, if_false] at h
            obtain ⟨hcv, hr⟩ := polygon_tail_inv h
            have hr' : r = closeRing (y0 :: ys') := J.arr.inj hr
            subst hr'
            refine ⟨closeRing_closed _ (by simp), ?_⟩
            intro v hv
            exact (checkVertices_ok_iff _ 0).1 hcv v (closeRing_subset hv)
      · simp [validate_geometry] at h

theorem validate_geometry_ring_invariants_witness :
    (GeometryType.bbox = GeometryType.bbox →
      [jpair 0 0, jpair 1 0, jpair 1 1, jpair 0 1, jpair 0 0].head? =
        [jpair 0 0, jpair 1 0, jpair 1 1, jpair 0 1, jpair 0 0].getLast? ∧
      [jpair 0 0, jpair 1 0, jpair 1 1, jpair 0 1, jpair 0 0].length = 5 ∧
      ∀ v ∈ [jpair 0 0, jpair 1 0, jpair 1 1, jpair 0 1, jpair 0 0], pairOk v = true) ∧
    (GeometryType.bbox = GeometryType.point →
      [jpair 0 0, jpair 1 0, jpair 1 1, jpair 0 1, jpair 0 0].head? =
        [jpair 0 0, jpair 1 0, jpair 1 1, jpair 0 1, jpair 0 0].getLast? ∧
      [jpair 0 0, jpair 1 0, jpair 1 1, jpair 0 1, jpair 0 0].length = 5 ∧
      ∀ lon lat, J.arr [J.num 0, J.num 0, J.num 1, J.num 1] = J.arr [J.num lon, J.num lat] →
        (-180 + 1 / 111 ≤ lon ∧ lon ≤ 180 - 1 / 111 ∧
         -90 + 1 / 111 ≤ lat ∧ lat ≤ 90 - 1 / 111) →
        ∀ v ∈ [jpair 0 0, jpair 1 0, jpair 1 1, jpair 0 1, jpair 0 0], pairOk v = true) ∧
    (GeometryType.bbox = GeometryType.polygon →
      ∀ xs, J.arr [J.num 0, J.num 0, J.num 1, J.num 1] = J.arr xs →
      [jpair 0 0, jpair 1 0, jpair 1 1, jpair 0 1, jpair 0 0].head? =
        [jpair 0 0, jpair 1 0, jpair 1 1, jpair 0 1, jpair 0 0].getLast? ∧
      ∀ v ∈ [jpair 0 0, jpair 1 0, jpair 1 1, jpair 0 1, jpair 0 0], pairOk v = true) :=
  validate_geometry_ring_invariants (J.arr [J.num 0, J.num 0, J.num 1, J.num 1])
    .bbox [jpair 0 0, jpair 1 0, jpair 1 1, jpair 0 1, jpair 0 0] rfl

example :
    spatial_filter_of (J.obj [("ab", J.num 1)]) =
      some "geo.intersects(Footprint, geography'POLYGON((a b))')" := by rfl

example :
    spatial_filter_of (J.arr [jpair 0 0, J.obj [("x", J.num 1), ("y", J.num 2)]]) =
      none := by rfl

example : spatial_filter_of (J.arr [jpair 0 0, J.num 5]) = none := by rfl

/-! ## Claim C4 -/

theorem process_results_spec (ps : List (String × TaskResult)) :
    (process_results ps).successful = ps.filterMap (fun p => succ_pick p.2) ∧
    (process_results ps).failed = ps.filterMap fail_pick ∧
    (process_results ps).total_size =
      (((process_results ps).successful).map DownloadOutcome.size_bytes).sum := by
  induction ps with
  | nil => exact ⟨rfl, rfl, rfl⟩
  | cons p rest ih =>
    obtain ⟨ih1, ih2, ih3⟩ := ih
    rcases p with ⟨i, r⟩
    rcases r with m | o
    · simp [process_results, succ_pick, fail_pick, ih1, ih2, ih3]
    · by_cases hs : o.success? = true
      · simp [process_results, succ_pick, fail_pick, hs, ih1, ih2, ih3]
      · have hs' : o.success? = false := by simpa using hs
        simp [process_results, succ_pick, fail_pick, hs', ih1, ih2, ih3]

theorem zip_map_run (run : String → TaskResult) (ids : List String) :
    ids.zip (ids.map run) = ids.map (fun i => (i, run i)) := by
  induction ids with
  | nil => rfl
  | cons i ids ih => simp [ih]

theorem succ_fail_partition_length (run : String → TaskResult) (ids : List String) :
    (ids.filterMap (fun i => succ_pick (run i))).length +
      (ids.filterMap (fun i => fail_pick (i, run i))).length = ids.length := by
  induction ids with
  | nil => rfl
  | cons i ids ih =>
    rcases hr : run i with m | o
    · simp [succ_pick, fail_pick, hr, ← ih]
      omega
    · by_cases hs : o.success? = true
      · simp [succ_pick, fail_pick, hr, hs, ← ih]
        omega
      · have hs' : o.success? = false := by simpa using hs
        simp [succ_pick, fail_pick, hr, hs', ← ih]
        omega

theorem fail_pick_id {i : String} {r : TaskResult} {e : FailedEntry}
    (h : fail_pick (i, r) = some e) : e.image_id = i := by
  rcases r with m | o
  · simp only [fail_pick, Option.some.injEq] at h
    rw [← h]
    rfl
  · simp only [fail_pick] at h
    split at h
    · cases h
    · rw [← Option.some.inj h]
      rfl

/-- C4: `batch_download_images` captures one outcome per input task — the
pair list fed to the aggregation loop is exactly one `(id, run id)` entry
per task, so a sibling task's failure or raised exception cannot remove or
alter another task's entry —; the aggregation partitions the outcomes into
the success dicts and the failed entries (which each carry the id of the
input task they correspond to, in input order), and the aggregate byte count
is the sum of `file_size_bytes` over exactly the successful outcomes. -/
theorem batch_download_partition (run : String → TaskResult) (image_ids : List String) :
    image_ids.zip (image_ids.map run) = image_ids.map (fun i => (i, run i)) ∧
    (batch_download run image_ids).successful =
      image_ids.filterMap (fun i => succ_pick (run i)) ∧
    (batch_download run image_ids).failed =
      image_ids.filterMap (fun i => fail_pick (i, run i)) ∧
    (batch_download run image_ids).total_size =
      (((batch_download run image_ids).successful).map DownloadOutcome.size_bytes).sum ∧
    ((batch_download run image_ids).successful).length +
      ((batch_download run image_ids).failed).length = image_ids.length ∧
    (∀ e ∈ (batch_download run image_ids).failed, e.image_id ∈ image_ids) := by
  obtain ⟨h1, h2, h3⟩ := process_results_spec (image_ids.zip (image_ids.map run))
  have hzip := zip_map_run run image_ids
  have hsucc : (batch_download run image_ids).successful =
      image_ids.filterMap (fun i => succ_pick (run i)) := by
    rw [batch_download, h1, hzip, List.filterMap_map]
    rfl
  have hfail : (batch_download run image_ids).failed =
      image_ids.filterMap (fun i => fail_pick (i, run i)) := by
    rw [batch_download, h2, hzip, List.filterMap_map]
    rfl
  refine ⟨hzip, hsucc, hfail, h3, ?_, ?_⟩
  · rw [hsucc, hfail]
    exact succ_fail_partition_length run image_ids
  · intro e he
    rw [hfail] at he
    obtain ⟨i, hi, hpick⟩ := List.mem_filterMap.1 he
    rw [fail_pick_id hpick]
    exact hi

example :
    batch_download
      (fun i => if i = "A" then .returned (.success "full" "A" "A.zip" 10 "u")
                else if i = "B" then .raised "boom"
                else .returned (.failureTimeout i "t"))
      ["A", "B", "C"] =
    ⟨[.success "full" "A" "A.zip" 10 "u"],
     [.raised "B" "boom", .returned "C" (.failureTimeout "C" "t")], 10⟩ := by rfl

/-! ## Claim C7 -/

theorem le_run_max (init : ℚ) (ps : List ImageRecord) : init ≤ run_max init ps := by
  induction ps generalizing init with
  | nil => simp [run_max]
  | cons p ps ih =>
    simp only [run_max, List.foldl_cons]
    exact le_trans (le_max_left _ _) (ih (max init (image_score p)))

theorem score_le_run_max (init : ℚ) (ps : List ImageRecord) :
    ∀ p ∈ ps, image_score p ≤ run_max init ps := by
  induction ps generalizing init with
  | nil => intro p hp; cases hp
  | cons q ps ih =>
    intro p hp
    rcases List.mem_cons.1 hp with rfl | hp
    · exact le_trans (le_max_right _ _) (le_run_max (max init (image_score p)) ps)
    · exact ih (max init (image_score q)) p hp

theorem run_max_attained (init : ℚ) (ps : List ImageRecord) :
    run_max init ps = init ∨ ∃ p ∈ ps, run_max init ps = image_score p := by
  induction ps generalizing init with
  | nil => exact .inl rfl
  | cons p ps ih =>
    rcases ih (max init (image_score p)) with hm | ⟨q, hq, hm⟩
    · rcases max_choice init (image_score p) with hmx | hmx
      · exact .inl (by rw [run_max, List.foldl_cons, ← run_max, hm, hmx])
      · exact .inr ⟨p, List.mem_cons_self p ps, by rw [run_max, List.foldl_cons, ← run_max, hm, hmx]⟩
    · exact .inr ⟨q, List.mem_cons_of_mem p hq, by rw [run_max, List.foldl_cons, ← run_max, hm]⟩

theorem select_best_go_spec (ps : List ImageRecord) : ∀ b : ImageRecord,
    (select_best_go (some b) (some (image_score b)) ps).1 =
      (b :: ps).find? (fun p => decide (image_score p = run_max (image_score b) ps)) := by
  induction ps with
  | nil =>
    intro b
    simp [select_best_go, run_max, List.find?]
  | cons p ps ih =>
    intro b
    by_cases hgt : image_score b < image_score p
    · have hb : beats (image_score p) (some (image_score b)) = true := by
        simpa [beats] using hgt
      have hM : run_max (image_score b) (p :: ps) = run_max (image_score p) ps := by
        rw [run_max, List.foldl_cons, ← run_max, max_eq_right hgt.le]
      have hbne : image_score b ≠ run_max (image_score p) ps :=
        ne_of_lt (lt_of_lt_of_le hgt (le_run_max (image_score p) ps))
      calc (select_best_go (some b) (some (image_score b)) (p :: ps)).1
          = (select_best_go (some p) (some (image_score p)) ps).1 := by
            rw [select_best_go, if_pos hb]
        _ = (p :: ps).find?
              (fun q => decide (image_score q = run_max (image_score p) ps)) := ih p
        _ = (b :: p :: ps).find?
              (fun q => decide (image_score q = run_max (image_score p) ps)) :=
            (List.find?_cons_of_neg _ (by simpa using hbne)).symm
        _ = (b :: p :: ps).find?
              (fun q => decide (image_score q = run_max (image_score b) (p :: ps))) := by
            rw [hM]
    · have hle : image_score p ≤ image_score b := not_lt.1 hgt
      have hb : ¬ beats (image_score p) (some (image_score b)) = true := by
        simpa [beats] using hgt
      have hM : run_max (image_score b) (p :: ps) = run_max (image_score b) ps := by
        rw [run_max, List.foldl_cons, ← run_max, max_eq_left hle]
      have hstep : (b :: ps).find?
            (fun q => decide (image_score q = run_max (image_score b) ps)) =
          (b :: p :: ps).find?
            (fun q => decide (image_score q = run_max (image_score b) ps)) := by
        by_cases hbeq : image_score b = run_max (image_score b) ps
        · rw [List.find?_cons_of_pos _ (by simpa using hbeq),
            List.find?_cons_of_pos _ (by simpa using hbeq)]
        · have hblt : image_score b < run_max (image_score b) ps :=
            lt_of_le_of_ne (le_run_max _ _) hbeq
          have hpne : image_score p ≠ run_max (image_score b) ps :=
            ne_of_lt (lt_of_le_of_lt hle hblt)
          rw [List.find?_cons_of_neg _ (by simpa using hbeq),
            List.find?_cons_of_neg _ (by simpa using hbeq),
            List.find?_cons_of_neg _ (by simpa using hpne)]
      calc (select_best_go (some b) (some (image_score b)) (p :: ps)).1
          = (select_best_go (some b) (some (image_score b)) ps).1 := by
            rw [select_best_go, if_neg hb]
        _ = (b :: ps).find?
              (fun q => decide (image_score q = run_max (image_score b) ps)) := ih b
        _ = (b :: p :: ps).find?
              (fun q => decide (image_score q = run_max (image_score b) ps)) := hstep
        _ = (b :: p :: ps).find?
              (fun q => decide (image_score q = run_max (image_score b) (p :: ps))) := by
            rw [hM]

/-- C7: best-image selection is order-stable and deterministic — for every
non-empty record list there is a maximum score m, and the selected record is
`find?` of the first record scoring m in input order (so a later record
tying the maximum never displaces an earlier one). -/
theorem select_best_order_stable (ps : List ImageRecord) (h : ps ≠ []) :
    ∃ m : ℚ, (∀ p ∈ ps, image_score p ≤ m) ∧ (∃ p ∈ ps, image_score p = m) ∧
      select_best ps = ps.find? (fun p => decide (image_score p = m)) := by
  rcases ps with _ | ⟨p0, rest⟩
  · exact absurd rfl h
  · refine ⟨run_max (image_score p0) rest, ?_, ?_, ?_⟩
    · intro p hp
      rcases List.mem_cons.1 hp with rfl | hp
      · exact le_run_max _ _
      · exact score_le_run_max _ _ p hp
    · rcases run_max_attained (image_score p0) rest with hm | ⟨q, hq, hm⟩
      · exact ⟨p0, List.mem_cons_self _ _, hm.symm⟩
      · exact ⟨q, List.mem_cons_of_mem _ hq, hm.symm⟩
    · exact select_best_go_spec rest p0

theorem select_best_order_stable_witness :
    ∃ m : ℚ,
      (∀ p ∈ [tie_record_1, tie_record_2], image_score p ≤ m) ∧
      (∃ p ∈ [tie_record_1, tie_record_2], image_score p = m) ∧
      select_best [tie_record_1, tie_record_2] =
        [tie_record_1, tie_record_2].find? (fun p => decide (image_score p = m)) :=
  select_best_order_stable [tie_record_1, tie_record_2] (by simp)

example : image_score tie_record_1 = image_score tie_record_2 := by rfl

example : select_best [tie_record_1, tie_record_2] = some tie_record_1 := by
  have heq : image_score tie_record_2 = image_score tie_record_1 := rfl
  show (select_best_go (some tie_record_1) (some (image_score tie_record_1))
    [tie_record_2]).1 = some tie_record_1
  rw [select_best_go, if_neg (by simp [beats, heq])]
  rfl

end Copernicus
